import Mathlib

/-!
Shallow embedding of the `tcl` telemetry collector (`src/main.rs`).

The program samples host identity and one disk, then performs a single
parameterized INSERT.  The embedding represents:
* OS strings returned by `OsStr::to_str` as `Option String` (`none` means the
  bytes are not valid text);
* `u64` byte counts as `Nat`, with the one subtraction in the program made
  explicit as wrapping arithmetic modulo `2 ^ 64`;
* `f64` as `ℚ`, with the rounding `u64` to `f64` cast modelled explicitly
  (`round_f64_nat`: round to nearest even at 53 significant bits); the
  subsequent divisions by `1024` only shift the exponent and are exact in
  `f64` at these magnitudes, so every metric value is the rounded byte count
  divided by `2 ^ 30`;
* the fatal paths (`expect`, `panic!`) as `Except.error` carrying the message.
-/

namespace Tcl

/-- Boolean test that the first character list is an initial segment of the
second; building block of substring search. -/
def starts_with : List Char → List Char → Bool
  | [], _ => true
  | _ :: _, [] => false
  | p :: ps, s :: ss => p == s && starts_with ps ss

/-- Boolean substring search: does `pat` occur contiguously inside the second
list? -/
def has_substr : List Char → List Char → Bool
  | pat, [] => starts_with pat []
  | pat, c :: cs => starts_with pat (c :: cs) || has_substr pat cs

/-- Models Rust `str::contains` with a string pattern: substring containment. -/
def contains_substr (hay pat : String) : Bool :=
  has_substr pat.toList hay.toList

/-- The modulus of Rust `u64` arithmetic. -/
def u64_mod : Nat := 2 ^ 64

/-- Subtraction of `u64` values embedded as `Nat` (both operands below
`u64_mod`): wraps modulo `2 ^ 64` on underflow, the release-profile semantics
of the unguarded `disk.total_space() - disk.available_space()`. -/
def u64_sub (a b : Nat) : Nat :=
  (a + u64_mod - b) % u64_mod

/-- One entry of the `sysinfo::Disks` enumeration as `get_disk_info` consumes
it: `name` and `mount_point` are the results of `OsStr::to_str` (`none` when
the OS string does not decode as text); the two sizes are raw byte counts. -/
structure Disk where
  name : Option String
  mount_point : Option String
  total_space : Nat
  available_space : Nat
  deriving DecidableEq

/-- `DiskInfo` from the source: the three capacity metrics in gibibytes. -/
structure DiskInfo where
  system_total_space : ℚ
  system_available_space : ℚ
  system_used_space : ℚ
  deriving DecidableEq

/-- `SystemInfo` from the source: OS display name and host name. -/
structure SystemInfo where
  system_name : String
  system_host_name : String
  deriving DecidableEq

/-- The rounding performed by the Rust cast `bytes as f64` on a `u64` value:
round to nearest, ties to even, at 53 significant bits.  Values up to
`2 ^ 53` are unchanged; above, the low `log2 - 52` bits are rounded away.
Every `u64` value stays in the normal `f64` range, so no overflow case is
needed. -/
def round_f64_nat (n : Nat) : Nat :=
  if n < 2 ^ 53 then n
  else
    let e := n.log2 - 52
    let q := n / 2 ^ e
    let r := n % 2 ^ e
    let half := 2 ^ (e - 1)
    let q2 :=
      if r < half then q
      else if half < r then q + 1
      else if q % 2 = 0 then q else q + 1
    q2 * 2 ^ e

/-- `DiskInfo::bytes_to_gb`: `bytes as f64 / 1024f64 / 1024f64 / 1024f64`.
The cast rounds (`round_f64_nat`); each subsequent division by `1024` only
shifts the exponent and is exact in `f64` at these magnitudes, so the value
is the rounded byte count divided by `2 ^ 30`, represented in `ℚ`. -/
def bytes_to_gb (bytes : Nat) : ℚ :=
  (round_f64_nat bytes : ℚ) / 1024 / 1024 / 1024

/-- The `DiskInfo` built for a selected disk inside `get_disk_info`:
`total_usage = disk.total_space() - disk.available_space()` in `u64`
arithmetic, then each byte count is converted with `bytes_to_gb`. -/
def disk_metrics (d : Disk) : DiskInfo where
  system_total_space := bytes_to_gb d.total_space
  system_available_space := bytes_to_gb d.available_space
  system_used_space := bytes_to_gb (u64_sub d.total_space d.available_space)

/-- `get_disk_info` from the source: scan the enumeration in order; an entry
whose name does not decode fails the `if let` and is skipped; an entry whose
name does not contain `"1p6"` is skipped by short-circuit before its mount
point is ever touched; for a name-matching entry, a mount point that does not
decode is the fatal `panic!("Error getting mount point")`, and a mount point
containing `"/home"` selects the entry. -/
def get_disk_info : List Disk → Except String (Option DiskInfo)
  | [] => .ok none
  | d :: rest =>
    match d.name with
    | none => get_disk_info rest
    | some n =>
      if contains_substr n "1p6" then
        match d.mount_point with
        | none => .error "Error getting mount point"
        | some mp =>
          if contains_substr mp "/home" then .ok (some (disk_metrics d))
          else get_disk_info rest
      else get_disk_info rest

/-- The name filter of `get_disk_info`: the name decodes and contains
`"1p6"`. -/
def name_matches (d : Disk) : Bool :=
  match d.name with
  | some n => contains_substr n "1p6"
  | none => false

/-- The full selection filter of `get_disk_info`: the name contains `"1p6"`
and the mount point decodes and contains `"/home"`, on the same entry. -/
def disk_matches (d : Disk) : Bool :=
  name_matches d &&
    (match d.mount_point with
     | some mp => contains_substr mp "/home"
     | none => false)

/-- The fatal path of `get_disk_info`: the name filter passes but the mount
point does not decode. -/
def mount_decode_panics (d : Disk) : Bool :=
  name_matches d && d.mount_point.isNone

/-- The process environment as the program reads it: the two variables
consulted by `init_db`, each possibly unset. -/
structure Env where
  LIBSQL_URL : Option String
  LIBSQL_AUTH_TOKEN : Option String
  deriving DecidableEq

/-- The answers of the system sampler: `System::name()` and
`System::host_name()`, each possibly unavailable. -/
structure SysState where
  name : Option String
  host_name : Option String
  deriving DecidableEq

/-- The database connection, represented by the url/token pair it is built
from (the remote build/connect step is network I/O outside the embedding). -/
structure Connection where
  url : String
  token : String
  deriving DecidableEq

/-- One `conn.execute` call: the statement text and its positional string
parameters. -/
structure SqlCall where
  sql : String
  params : List String
  deriving DecidableEq

/-- `init_db` from the source, restricted to its environment handling:
`env::var("LIBSQL_URL").expect("LIBSQL_URL must be set")` aborts when the
variable is unset, and `env::var("LIBSQL_AUTH_TOKEN").unwrap_or_default()`
falls back to the empty string. -/
def init_db (env : Env) : Except String Connection :=
  match env.LIBSQL_URL with
  | none => .error "LIBSQL_URL must be set"
  | some url => .ok { url := url, token := env.LIBSQL_AUTH_TOKEN.getD "" }

/-- Models Rust `f64::to_string` on the values this program binds: a value
with an integral rational value prints as the plain decimal integer, exactly
as Rust `Display` does (`0` prints `"0"`, `10` prints `"10"`); a non-integral
value (none arises on a verified path) falls back to the `ℚ` printer. -/
def f64_to_string (q : ℚ) : String :=
  if q.den = 1 then toString q.num else toString q

/-- `insert_into_db` from the source: the single parameterized statement, with
the two identity strings followed by the three disk metrics serialized with
`to_string` as its five positional parameters. -/
def insert_into_db (system : SystemInfo) (disk : DiskInfo) : SqlCall where
  sql := "INSERT INTO info (system_name, system_host_name, system_total_space, system_available_space, system_used_space) VALUES (?1, ?2, ?3, ?4, ?5)"
  params := [system.system_name, system.system_host_name,
             f64_to_string disk.system_total_space,
             f64_to_string disk.system_available_space,
             f64_to_string disk.system_used_space]

/-- `main` from the source as a function of its three external inputs — the
process environment, the system sampler answers, and the disk enumeration.
It yields the connection and the insert call handed to `conn.execute`, or the
message of the fatal error that aborts the run first.  The order mirrors the
source: `init_db`, then the system sampler with `unwrap_or_default`, then
`get_disk_info` with the all-zero `DiskInfo` fallback, then the insert. -/
def run_main (env : Env) (sys : SysState) (disks : List Disk) :
    Except String (Connection × SqlCall) := do
  let conn ← init_db env
  let system_info : SystemInfo :=
    { system_name := sys.name.getD "", system_host_name := sys.host_name.getD "" }
  let found ← get_disk_info disks
  let disk_info : DiskInfo :=
    match found with
    | some d => d
    | none =>
      { system_total_space := 0, system_available_space := 0, system_used_space := 0 }
  pure (conn, insert_into_db system_info disk_info)

/-- An entry that is neither selected nor fatal leaves the scan unchanged. -/
theorem get_disk_info_skip (d : Disk) (l : List Disk)
    (hm : disk_matches d = false) (hp : mount_decode_panics d = false) :
    get_disk_info (d :: l) = get_disk_info l := by
  rcases d with ⟨name, mp, t, a⟩
  cases name with
  | none => rfl
  | some n =>
    simp only [disk_matches, mount_decode_panics, name_matches, Bool.and_eq_false_iff] at hm hp
    cases mp with
    | none =>
      rcases hp with hp | hp
      · simp [get_disk_info, hp]
      · simp [Option.isNone] at hp
    | some m =>
      by_cases h1 : contains_substr n "1p6"
      · rcases hm with hm | hm
        · simp [h1] at hm
        · simp [get_disk_info, h1, show contains_substr m "/home" = false from hm]
      · simp [get_disk_info, h1]

/-- A selected entry stops the scan with its metrics. -/
theorem get_disk_info_cons_match (d : Disk) (l : List Disk)
    (h : disk_matches d = true) :
    get_disk_info (d :: l) = .ok (some (disk_metrics d)) := by
  rcases d with ⟨name, mp, t, a⟩
  cases name with
  | none => simp [disk_matches, name_matches] at h
  | some n =>
    simp only [disk_matches, name_matches, Bool.and_eq_true] at h
    cases mp with
    | none => simp at h
    | some m =>
      simp [get_disk_info, h.1, show contains_substr m "/home" = true from h.2]

/-- A block of entries that are neither selected nor fatal can be dropped from
the front of the scan. -/
theorem get_disk_info_append_clean (pre l : List Disk)
    (h : ∀ x ∈ pre, disk_matches x = false ∧ mount_decode_panics x = false) :
    get_disk_info (pre ++ l) = get_disk_info l := by
  induction pre with
  | nil => rfl
  | cons d pre ih =>
    rw [List.cons_append,
      get_disk_info_skip d _ (h d (by simp)).1 (h d (by simp)).2]
    exact ih fun x hx => h x (by simp [hx])

/-- A name-matching entry with an undecodable mount point stops the scan with
the fatal message. -/
theorem get_disk_info_cons_panics (d : Disk) (l : List Disk)
    (h : mount_decode_panics d = true) :
    get_disk_info (d :: l) = .error "Error getting mount point" := by
  rcases d with ⟨name, mp, t, a⟩
  cases name with
  | none => simp [mount_decode_panics, name_matches] at h
  | some n =>
    simp only [mount_decode_panics, name_matches, Bool.and_eq_true] at h
    cases mp with
    | none => simp [get_disk_info, h.1]
    | some m => simp [Option.isNone] at h

/-- An enumeration with no name-matching entry scans to the no-match result:
the fatal path is unreachable there, whatever the mount points are. -/
theorem get_disk_info_no_name_match (l : List Disk)
    (hl : ∀ x ∈ l, name_matches x = false) :
    get_disk_info l = .ok none := by
  induction l with
  | nil => rfl
  | cons x rest ih =>
    have hx := hl x (by simp)
    rw [get_disk_info_skip x rest (by simp [disk_matches, hx])
      (by simp [mount_decode_panics, hx])]
    exact ih fun y hy => hl y (by simp [hy])

/-- The only way the scan can fail: its message is the mount-point panic, and
some entry passes the name filter while its mount point does not decode. -/
theorem get_disk_info_error_elim (l : List Disk) (e : String)
    (h : get_disk_info l = .error e) :
    e = "Error getting mount point" ∧
      ∃ x ∈ l, name_matches x = true ∧ x.mount_point = none := by
  induction l with
  | nil => simp [get_disk_info] at h
  | cons d rest ih =>
    rcases d with ⟨name, mp, t, a⟩
    cases name with
    | none =>
      obtain ⟨he, x, hx, hprop⟩ := ih h
      exact ⟨he, x, by simp [hx], hprop⟩
    | some n =>
      by_cases h1 : contains_substr n "1p6"
      · cases mp with
        | none =>
          rw [get_disk_info_cons_panics _ rest
            (by simp [mount_decode_panics, name_matches, h1])] at h
          injection h with he
          exact ⟨he.symm, ⟨some n, none, t, a⟩, by simp,
            by simp [name_matches, h1], rfl⟩
        | some m =>
          by_cases h2 : contains_substr m "/home"
          · simp [get_disk_info, h1, h2] at h
          · simp only [get_disk_info, h1, h2, if_true, if_false] at h
            obtain ⟨he, x, hx, hprop⟩ := ih h
            exact ⟨he, x, by simp [hx], hprop⟩
      · simp only [get_disk_info, h1, if_false] at h
        obtain ⟨he, x, hx, hprop⟩ := ih h
        exact ⟨he, x, by simp [hx], hprop⟩

/-- Replacing the tail of the scan by one with an equal scan result keeps the
overall result. -/
theorem get_disk_info_cons_congr (x : Disk) (A B : List Disk)
    (h : get_disk_info A = get_disk_info B) :
    get_disk_info (x :: A) = get_disk_info (x :: B) := by
  rcases x with ⟨name, mp, t, a⟩
  cases name with
  | none => exact h
  | some n =>
    by_cases h1 : contains_substr n "1p6"
    · cases mp with
      | none => simp [get_disk_info, h1]
      | some m =>
        by_cases h2 : contains_substr m "/home"
        · simp [get_disk_info, h1, h2]
        · simpa [get_disk_info, h1, h2] using h
    · simpa [get_disk_info, h1] using h

/-- C1: for every disk enumeration, the scan of `get_disk_info` returns the
metrics of the first entry on which the name contains `"1p6"` and the mount
point contains `"/home"` together: every earlier entry fails the combined
filter (without being fatal), and the entries after the first match are
arbitrary — the result does not depend on them, so they are never examined. -/
theorem C1_first_match_selected (pre : List Disk) (d : Disk) (suf : List Disk)
    (hpre : ∀ x ∈ pre, disk_matches x = false ∧ mount_decode_panics x = false)
    (hd : disk_matches d = true) :
    get_disk_info (pre ++ d :: suf) = .ok (some (disk_metrics d)) := by
  rw [get_disk_info_append_clean pre _ hpre]
  exact get_disk_info_cons_match d suf hd

/-- Witness for C1: a non-matching disk, then the first match (10 GiB total,
5 GiB available), then a later matching disk that is ignored. -/
theorem C1_witness :
    get_disk_info
      [{ name := some "sda1", mount_point := some "/", total_space := 7,
         available_space := 3 },
       { name := some "nvme0n1p6", mount_point := some "/home",
         total_space := 10737418240, available_space := 5368709120 },
       { name := some "nvme0n1p6", mount_point := some "/home/other",
         total_space := 1, available_space := 1 }] =
      .ok (some { system_total_space := 10, system_available_space := 5,
                  system_used_space := 5 }) :=
  (C1_first_match_selected
      [{ name := some "sda1", mount_point := some "/", total_space := 7,
         available_space := 3 }]
      { name := some "nvme0n1p6", mount_point := some "/home",
        total_space := 10737418240, available_space := 5368709120 }
      [{ name := some "nvme0n1p6", mount_point := some "/home/other",
         total_space := 1, available_space := 1 }]
      (by decide) (by decide)).trans
    (by norm_num [disk_metrics, bytes_to_gb, round_f64_nat, u64_sub, u64_mod])

/-- A name-matching entry with an undecodable mount point, preceded only by
entries that fail the combined filter, makes the scan abort with the fatal
message (an earlier fatal entry produces the same message). -/
theorem get_disk_info_error_of_panics (pre : List Disk) (d : Disk)
    (suf : List Disk)
    (hpre : ∀ x ∈ pre, disk_matches x = false)
    (hd : mount_decode_panics d = true) :
    get_disk_info (pre ++ d :: suf) = .error "Error getting mount point" := by
  induction pre with
  | nil => exact get_disk_info_cons_panics d suf hd
  | cons x pre ih =>
    rw [List.cons_append]
    cases hx : mount_decode_panics x with
    | true => exact get_disk_info_cons_panics x _ hx
    | false =>
      rw [get_disk_info_skip x _ (hpre x (by simp)) hx]
      exact ih fun y hy => hpre y (by simp [hy])

/-- C2: with the URL configured, an enumeration holding a name-matching entry
with an undecodable mount point, none of whose earlier entries satisfies both
filters, makes the whole run abort with the mount-point error, so no insert
call is produced; whereas an enumeration with no name-matching entry at all
never reaches the fatal path — even when every mount point is undecodable —
because the name filter is evaluated first by short-circuit. -/
theorem C2_undecodable_mount_aborts (env : Env) (sys : SysState) (u : String)
    (pre : List Disk) (d : Disk) (suf : List Disk) (l : List Disk)
    (henv : env.LIBSQL_URL = some u)
    (hpre : ∀ x ∈ pre, disk_matches x = false)
    (hd : mount_decode_panics d = true)
    (hl : ∀ x ∈ l, name_matches x = false) :
    run_main env sys (pre ++ d :: suf) = .error "Error getting mount point" ∧
      get_disk_info l = .ok none := by
  refine ⟨?_, get_disk_info_no_name_match l hl⟩
  have hg := get_disk_info_error_of_panics pre d suf hpre hd
  simp [run_main, init_db, henv, hg, Bind.bind, Except.bind]

/-- Witness for C2: a concrete run with the URL set and one name-matching
disk whose mount point does not decode, next to an enumeration with no
matching name in which every mount point is undecodable. -/
theorem C2_witness :
    run_main
        { LIBSQL_URL := some "libsql://db.example", LIBSQL_AUTH_TOKEN := none }
        { name := some "Linux", host_name := some "box" }
        [{ name := some "nvme1p6", mount_point := none, total_space := 4,
           available_space := 2 }] =
      .error "Error getting mount point" ∧
      get_disk_info
        [{ name := some "sda2", mount_point := none, total_space := 9,
           available_space := 1 }] =
        .ok none :=
  C2_undecodable_mount_aborts
    { LIBSQL_URL := some "libsql://db.example", LIBSQL_AUTH_TOKEN := none }
    { name := some "Linux", host_name := some "box" }
    "libsql://db.example" []
    { name := some "nvme1p6", mount_point := none, total_space := 4,
      available_space := 2 } []
    [{ name := some "sda2", mount_point := none, total_space := 9,
       available_space := 1 }]
    rfl (by decide) (by decide) (by decide)

/-- C9: an entry whose name does not decode is skipped outright — deleting it
from the enumeration leaves the scan unchanged, even when its mount point
contains `"/home"` — and every fatal outcome of the scan carries the
mount-point message together with a name-matching entry whose mount point
does not decode, so only that combination ever aborts the run. -/
theorem C9_undecodable_name_skipped (pre : List Disk) (d : Disk)
    (suf : List Disk) (l : List Disk) (e : String)
    (hd : d.name = none)
    (hl : get_disk_info l = .error e) :
    get_disk_info (pre ++ d :: suf) = get_disk_info (pre ++ suf) ∧
      e = "Error getting mount point" ∧
      ∃ x ∈ l, name_matches x = true ∧ x.mount_point = none := by
  refine ⟨?_, get_disk_info_error_elim l e hl⟩
  induction pre with
  | nil =>
    rcases d with ⟨dn, mp, t, a⟩
    have hd2 : dn = none := hd
    subst hd2
    rfl
  | cons x pre ih =>
    simp only [List.cons_append]
    exact get_disk_info_cons_congr x _ _ ih

/-- Witness for C9: the undecodable-name disk is mounted under `/home` and is
still skipped, while a decodable name containing `"1p6"` with an undecodable
mount point is what aborts a scan. -/
theorem C9_witness :
    (get_disk_info
        [{ name := some "root", mount_point := some "/", total_space := 2,
           available_space := 1 },
         { name := none, mount_point := some "/home", total_space := 5,
           available_space := 5 },
         { name := some "nvme1p6", mount_point := some "/home",
           total_space := 8589934592, available_space := 4294967296 }] =
      get_disk_info
        [{ name := some "root", mount_point := some "/", total_space := 2,
           available_space := 1 },
         { name := some "nvme1p6", mount_point := some "/home",
           total_space := 8589934592, available_space := 4294967296 }]) ∧
      "Error getting mount point" = "Error getting mount point" ∧
      ∃ x ∈ [({ name := some "nvme1p6", mount_point := none, total_space := 3,
                available_space := 1 } : Disk)],
        name_matches x = true ∧ x.mount_point = none :=
  C9_undecodable_name_skipped
    [{ name := some "root", mount_point := some "/", total_space := 2,
       available_space := 1 }]
    { name := none, mount_point := some "/home", total_space := 5,
      available_space := 5 }
    [{ name := some "nvme1p6", mount_point := some "/home",
       total_space := 8589934592, available_space := 4294967296 }]
    [{ name := some "nvme1p6", mount_point := none, total_space := 3,
       available_space := 1 }]
    "Error getting mount point" rfl (by rfl)

deriving instance DecidableEq for Except

/-- Evaluated form of the `u64` modulus. -/
theorem u64_mod_eq : u64_mod = 18446744073709551616 := by
  norm_num [u64_mod]

/-- Without underflow, the wrapping `u64` subtraction is plain subtraction. -/
theorem u64_sub_of_le (a b : Nat) (hb : b ≤ a) (ha : a < u64_mod) :
    u64_sub a b = a - b := by
  show (a + u64_mod - b) % u64_mod = a - b
  rw [show a + u64_mod - b = (a - b) + u64_mod by omega, Nat.add_mod_right,
    Nat.mod_eq_of_lt (by omega)]

/-- On underflow, the wrapping `u64` subtraction lands `2 ^ 64` above the
mathematical difference. -/
theorem u64_sub_of_lt (a b : Nat) (hab : a < b) (hb : b < u64_mod) :
    u64_sub a b = a + u64_mod - b := by
  show (a + u64_mod - b) % u64_mod = a + u64_mod - b
  exact Nat.mod_eq_of_lt (by omega)

/-- Evaluation of `Nat.log2` from a power-of-two bracketing. -/
theorem nat_log2_eq_of_bounds (n m : Nat) (h1 : 2 ^ m ≤ n)
    (h2 : n < 2 ^ (m + 1)) : Nat.log2 n = m := by
  rw [Nat.log2_eq_log_two]
  exact Nat.log_eq_of_pow_le_of_lt_pow h1 h2

/-- The `f64` cast is exact up to `2 ^ 53`: such values round to
themselves. -/
theorem round_f64_nat_eq_self (n : Nat) (h : n ≤ 2 ^ 53) :
    round_f64_nat n = n := by
  rcases lt_or_eq_of_le h with hlt | heq
  · unfold round_f64_nat
    rw [if_pos hlt]
  · subst heq
    have hlog : Nat.log2 9007199254740992 = 53 :=
      nat_log2_eq_of_bounds _ _ (by norm_num) (by norm_num)
    norm_num [round_f64_nat, hlog]

/-- For a disk with `available_space ≤ total_space ≤ 2 ^ 53` — the range in
which the `f64` cast is exact — the used-space metric is exactly the
difference of the other two metrics. -/
theorem disk_metrics_used_eq (d : Disk) (ht : d.total_space ≤ 2 ^ 53)
    (ha : d.available_space ≤ d.total_space) :
    (disk_metrics d).system_used_space =
      (disk_metrics d).system_total_space -
        (disk_metrics d).system_available_space := by
  have ht64 : d.total_space < u64_mod :=
    lt_of_le_of_lt ht (by rw [u64_mod_eq]; norm_num)
  simp only [disk_metrics, bytes_to_gb,
    u64_sub_of_le d.total_space d.available_space ha ht64,
    round_f64_nat_eq_self d.total_space ht,
    round_f64_nat_eq_self d.available_space (le_trans ha ht),
    round_f64_nat_eq_self (d.total_space - d.available_space)
      (le_trans (Nat.sub_le _ _) ht),
    Nat.cast_sub ha]
  ring

/-- C3 as amended: when exactly one entry satisfies both filters — every
earlier entry fails the combined filter without being fatal, every later
entry fails it — and its byte counts are at most `2 ^ 53` (the range in which
the `f64` cast is exact) with available ≤ total, the scan returns exactly the
claimed metrics, and used equals total minus available exactly; at the
scenario values of 10 GiB total and 5 GiB available the persisted numeric
fields are `"10"`, `"5"`, `"5"`. -/
theorem C3_unique_match_metrics (pre : List Disk) (d : Disk) (suf : List Disk)
    (hpre : ∀ x ∈ pre, disk_matches x = false ∧ mount_decode_panics x = false)
    (_hsuf : ∀ x ∈ suf, disk_matches x = false)
    (hd : disk_matches d = true)
    (ht : d.total_space ≤ 2 ^ 53)
    (ha : d.available_space ≤ d.total_space) :
    get_disk_info (pre ++ d :: suf) =
      .ok (some
        { system_total_space := (d.total_space : ℚ) / 1024 / 1024 / 1024,
          system_available_space :=
            (d.available_space : ℚ) / 1024 / 1024 / 1024,
          system_used_space :=
            ((d.total_space : ℚ) - (d.available_space : ℚ)) /
              1024 / 1024 / 1024 }) ∧
      (disk_metrics d).system_used_space =
        (disk_metrics d).system_total_space -
          (disk_metrics d).system_available_space ∧
      Except.map (fun r => r.2.params)
        (run_main
          { LIBSQL_URL := some "libsql://db.example",
            LIBSQL_AUTH_TOKEN := none }
          { name := some "Linux", host_name := some "box" }
          [{ name := some "nvme1p6", mount_point := some "/home/data",
             total_space := 10737418240, available_space := 5368709120 }]) =
        .ok ["Linux", "box", "10", "5", "5"] := by
  refine ⟨?_, disk_metrics_used_eq d ht ha, ?_⟩
  · rw [get_disk_info_append_clean pre _ hpre,
      get_disk_info_cons_match d suf hd]
    have ht64 : d.total_space < u64_mod :=
      lt_of_le_of_lt ht (by rw [u64_mod_eq]; norm_num)
    simp only [disk_metrics, bytes_to_gb,
      u64_sub_of_le d.total_space d.available_space ha ht64,
      round_f64_nat_eq_self d.total_space ht,
      round_f64_nat_eq_self d.available_space (le_trans ha ht),
      round_f64_nat_eq_self (d.total_space - d.available_space)
        (le_trans (Nat.sub_le _ _) ht),
      Nat.cast_sub ha]
  · have hmet : disk_metrics
        { name := some "nvme1p6", mount_point := some "/home/data",
          total_space := 10737418240, available_space := 5368709120 } =
        { system_total_space := 10, system_available_space := 5,
          system_used_space := 5 } := by
      norm_num [disk_metrics, bytes_to_gb, round_f64_nat, u64_sub, u64_mod]
    have hg := get_disk_info_cons_match
      { name := some "nvme1p6", mount_point := some "/home/data",
        total_space := 10737418240, available_space := 5368709120 } []
      (by decide)
    rw [hmet] at hg
    simp only [run_main, init_db, hg, insert_into_db, f64_to_string,
      Except.map, Bind.bind, Except.bind]
    decide

/-- Witness for C3 at the scenario-B enumeration: a single matching disk with
10 GiB total and 5 GiB available yields the metrics 10, 5 and 5. -/
theorem C3_witness :
    get_disk_info
      [{ name := some "nvme1p6", mount_point := some "/home/data",
         total_space := 10737418240, available_space := 5368709120 }] =
      .ok (some { system_total_space := 10, system_available_space := 5,
                  system_used_space := 5 }) :=
  ((C3_unique_match_metrics []
      { name := some "nvme1p6", mount_point := some "/home/data",
        total_space := 10737418240, available_space := 5368709120 } []
      (by decide) (by decide) (by decide) (by decide) (by decide)).1).trans
    (by norm_num)

/-- Counterexample to C3 as originally stated: a single matching disk with
total space `2 ^ 54 + 3` bytes and available space 6 bytes — a `u64` value
with available ≤ total — is selected, but the rounding `u64` to `f64` cast
makes the total metric differ from `total / 1024 ^ 3`, and the used metric
differ both from `(total − available) / 1024 ^ 3` and from the difference of
the other two metrics. -/
theorem C3_counterexample :
    get_disk_info
      [{ name := some "nvme1p6", mount_point := some "/home/data",
         total_space := 18014398509481987, available_space := 6 }] =
      .ok (some (disk_metrics
        { name := some "nvme1p6", mount_point := some "/home/data",
          total_space := 18014398509481987, available_space := 6 })) ∧
      (disk_metrics
        { name := some "nvme1p6", mount_point := some "/home/data",
          total_space := 18014398509481987,
          available_space := 6 }).system_total_space ≠
        (18014398509481987 : ℚ) / 1024 / 1024 / 1024 ∧
      (disk_metrics
        { name := some "nvme1p6", mount_point := some "/home/data",
          total_space := 18014398509481987,
          available_space := 6 }).system_used_space ≠
        ((18014398509481987 : ℚ) - 6) / 1024 / 1024 / 1024 ∧
      (disk_metrics
        { name := some "nvme1p6", mount_point := some "/home/data",
          total_space := 18014398509481987,
          available_space := 6 }).system_used_space ≠
        (disk_metrics
          { name := some "nvme1p6", mount_point := some "/home/data",
            total_space := 18014398509481987,
            available_space := 6 }).system_total_space -
          (disk_metrics
            { name := some "nvme1p6", mount_point := some "/home/data",
              total_space := 18014398509481987,
              available_space := 6 }).system_available_space := by
  have hlog1 : Nat.log2 18014398509481987 = 54 :=
    nat_log2_eq_of_bounds _ _ (by norm_num) (by norm_num)
  have hlog2 : Nat.log2 18014398509481981 = 53 :=
    nat_log2_eq_of_bounds _ _ (by norm_num) (by norm_num)
  have hsub : u64_sub 18014398509481987 6 = 18014398509481981 := by
    norm_num [u64_sub, u64_mod]
  refine ⟨get_disk_info_cons_match _ _ (by decide), ?_, ?_, ?_⟩ <;>
    · simp only [disk_metrics, bytes_to_gb, hsub]
      norm_num [round_f64_nat, hlog1, hlog2]

/-- C5: the gibibyte conversion is exact at one full gibibyte and at zero. -/
theorem C5_gib_conversion_exact :
    bytes_to_gb 1073741824 = 1 ∧ bytes_to_gb 0 = 0 := by
  constructor <;> norm_num [bytes_to_gb, round_f64_nat]

/-- C10: the used-space computation subtracts in unguarded `u64` arithmetic:
for a matched disk with available ≤ total the subtraction does not underflow —
the used byte count equals total minus available, and the used-space metric
is its conversion, hence non-negative — while for a matched disk reporting
available > total the subtraction wraps to a value `2 ^ 64` above the
mathematical difference; both cases flow into the metrics the scan actually
returns. -/
theorem C10_used_space_subtraction (d : Disk)
    (hd : disk_matches d = true)
    (ht : d.total_space < u64_mod)
    (ha : d.available_space < u64_mod) :
    (d.available_space ≤ d.total_space →
      u64_sub d.total_space d.available_space =
          d.total_space - d.available_space ∧
        (disk_metrics d).system_used_space =
          bytes_to_gb (d.total_space - d.available_space) ∧
        0 ≤ (disk_metrics d).system_used_space) ∧
      (d.total_space < d.available_space →
        u64_sub d.total_space d.available_space =
            d.total_space + u64_mod - d.available_space ∧
          (u64_sub d.total_space d.available_space : ℤ) ≠
            (d.total_space : ℤ) - (d.available_space : ℤ)) ∧
      get_disk_info [d] = .ok (some (disk_metrics d)) := by
  refine ⟨fun hle => ⟨u64_sub_of_le _ _ hle ht,
      congrArg bytes_to_gb (u64_sub_of_le _ _ hle ht), ?_⟩,
    fun hlt => ⟨u64_sub_of_lt _ _ hlt ha, ?_⟩,
    get_disk_info_cons_match d [] hd⟩
  · simp only [disk_metrics, bytes_to_gb]
    positivity
  · rw [u64_sub_of_lt _ _ hlt ha]
    have hm := u64_mod_eq
    have hcast : ((d.total_space + u64_mod - d.available_space : Nat) : ℤ) =
        (d.total_space : ℤ) + (u64_mod : ℤ) - (d.available_space : ℤ) := by
      push_cast [Nat.cast_sub (by omega : d.available_space ≤
        d.total_space + u64_mod)]
      ring
    rw [hcast]
    have hmz : (u64_mod : ℤ) = 18446744073709551616 := by
      rw [hm]; norm_num
    omega

/-- Witness for C10: a matched disk reporting 5 bytes total and 10 bytes
available makes the unguarded subtraction wrap, and the wrapped value reaches
the metrics the scan returns. -/
theorem C10_witness :
    u64_sub 5 10 = 18446744073709551611 ∧
      (u64_sub 5 10 : ℤ) ≠ (5 : ℤ) - (10 : ℤ) ∧
      get_disk_info
        [{ name := some "nvme1p6", mount_point := some "/home",
           total_space := 5, available_space := 10 }] =
        .ok (some (disk_metrics
          { name := some "nvme1p6", mount_point := some "/home",
            total_space := 5, available_space := 10 })) := by
  have h := C10_used_space_subtraction
    { name := some "nvme1p6", mount_point := some "/home",
      total_space := 5, available_space := 10 }
    (by decide) (by decide) (by decide)
  obtain ⟨h1, h2⟩ := h.2.1 (by decide)
  exact ⟨h1.trans (by decide), h2, h.2.2⟩

/-- C4: legitimate absence of data becomes defaults: with the URL set, an
enumeration with no name-matching entry makes the scan report no match, and a
run whose OS name and host name are both unavailable still succeeds — the two
identity fields are empty strings and the three numeric fields are the
all-zero defaults, serialized as `"0"`. -/
theorem C4_absence_defaults (env : Env) (u : String) (disks : List Disk)
    (hurl : env.LIBSQL_URL = some u)
    (hdisks : ∀ x ∈ disks, name_matches x = false) :
    get_disk_info disks = .ok none ∧
      run_main env { name := none, host_name := none } disks =
        .ok ({ url := u, token := env.LIBSQL_AUTH_TOKEN.getD "" },
          insert_into_db { system_name := "", system_host_name := "" }
            { system_total_space := 0, system_available_space := 0,
              system_used_space := 0 }) ∧
      (insert_into_db { system_name := "", system_host_name := "" }
          { system_total_space := 0, system_available_space := 0,
            system_used_space := 0 }).params = ["", "", "0", "0", "0"] := by
  have hg := get_disk_info_no_name_match disks hdisks
  refine ⟨hg, ?_, by decide⟩
  simp [run_main, init_db, hurl, hg, Bind.bind, Except.bind, Pure.pure,
    Except.pure]

/-- Witness for C4: an enumeration with one non-matching disk and an
environment with the URL set but no token. -/
theorem C4_witness :
    get_disk_info
      [{ name := some "sda1", mount_point := none, total_space := 6,
         available_space := 2 }] = .ok none ∧
      run_main { LIBSQL_URL := some "libsql://db.example",
                 LIBSQL_AUTH_TOKEN := none }
          { name := none, host_name := none }
          [{ name := some "sda1", mount_point := none, total_space := 6,
             available_space := 2 }] =
        .ok ({ url := "libsql://db.example", token := "" },
          insert_into_db { system_name := "", system_host_name := "" }
            { system_total_space := 0, system_available_space := 0,
              system_used_space := 0 }) ∧
      (insert_into_db { system_name := "", system_host_name := "" }
          { system_total_space := 0, system_available_space := 0,
            system_used_space := 0 }).params = ["", "", "0", "0", "0"] :=
  C4_absence_defaults
    { LIBSQL_URL := some "libsql://db.example", LIBSQL_AUTH_TOKEN := none }
    "libsql://db.example"
    [{ name := some "sda1", mount_point := none, total_space := 6,
       available_space := 2 }]
    rfl (by decide)

/-- C6: when `LIBSQL_URL` is unset the run aborts with the descriptive
message, for every system-sampler state and every disk enumeration alike — in
particular for enumerations whose scan would succeed or would itself abort —
so no sampling outcome can influence or precede the configuration failure. -/
theorem C6_missing_url_aborts (env : Env) (sys : SysState)
    (disks : List Disk) (h : env.LIBSQL_URL = none) :
    run_main env sys disks = .error "LIBSQL_URL must be set" := by
  simp [run_main, init_db, h, Bind.bind, Except.bind]

/-- Witness for C6: the URL is unset while the enumeration holds a disk whose
mount point would be fatal to decode; the run still aborts with the
configuration message. -/
theorem C6_witness :
    run_main { LIBSQL_URL := none, LIBSQL_AUTH_TOKEN := some "token" }
        { name := some "Linux", host_name := some "box" }
        [{ name := some "nvme1p6", mount_point := none, total_space := 1,
           available_space := 2 }] =
      .error "LIBSQL_URL must be set" :=
  C6_missing_url_aborts
    { LIBSQL_URL := none, LIBSQL_AUTH_TOKEN := some "token" }
    { name := some "Linux", host_name := some "box" }
    [{ name := some "nvme1p6", mount_point := none, total_space := 1,
       available_space := 2 }]
    rfl

/-- C7: with the URL set, an unset or empty `LIBSQL_AUTH_TOKEN` yields the
empty-string token on the connection, and `init_db` succeeds — absence of the
token is never an error. -/
theorem C7_token_default_empty (env : Env) (u : String)
    (hurl : env.LIBSQL_URL = some u)
    (htok : env.LIBSQL_AUTH_TOKEN = none ∨ env.LIBSQL_AUTH_TOKEN = some "") :
    init_db env = .ok { url := u, token := "" } := by
  rcases htok with h | h <;> simp [init_db, hurl, h]

/-- Witness for C7 at both token states: unset, and set to the empty
string. -/
theorem C7_witness :
    init_db { LIBSQL_URL := some "libsql://db.example",
              LIBSQL_AUTH_TOKEN := none } =
        .ok { url := "libsql://db.example", token := "" } ∧
      init_db { LIBSQL_URL := some "libsql://db.example",
                LIBSQL_AUTH_TOKEN := some "" } =
        .ok { url := "libsql://db.example", token := "" } :=
  ⟨C7_token_default_empty
      { LIBSQL_URL := some "libsql://db.example", LIBSQL_AUTH_TOKEN := none }
      "libsql://db.example" rfl (Or.inl rfl),
    C7_token_default_empty
      { LIBSQL_URL := some "libsql://db.example",
        LIBSQL_AUTH_TOKEN := some "" }
      "libsql://db.example" rfl (Or.inr rfl)⟩

/-- C8: the persister builds exactly one statement — the parameterized INSERT
into `info` with the five named columns — and binds five positional string
parameters, the three numeric ones through decimal serialization; the
all-zero default row binds `"0"`, `"0"`, `"0"`. -/
theorem C8_single_insert_statement (system : SystemInfo) (disk : DiskInfo) :
    (insert_into_db system disk).sql =
      "INSERT INTO info (system_name, system_host_name, system_total_space, system_available_space, system_used_space) VALUES (?1, ?2, ?3, ?4, ?5)" ∧
      (insert_into_db system disk).params =
        [system.system_name, system.system_host_name,
         f64_to_string disk.system_total_space,
         f64_to_string disk.system_available_space,
         f64_to_string disk.system_used_space] ∧
      (insert_into_db system disk).params.length = 5 ∧
      (insert_into_db { system_name := "name", system_host_name := "host" }
          { system_total_space := 0, system_available_space := 0,
            system_used_space := 0 }).params =
        ["name", "host", "0", "0", "0"] :=
  ⟨rfl, rfl, rfl, by decide⟩
